import Mathlib

/-
Verification of the content-to-presentation rendering pattern of a personal
portfolio site (static About and Uses pages plus MDX articles).

The data model (ContentItem, ContentGroup, Article) and the renderers
(Tool, SocialLink, the Uses page, the article layout) are embedded below.
Pure JSX components become Lean functions from their props to a markup tree;
the hard-coded page content becomes literal Lean data.  Components that live
outside the available sources (Card, Section, SimpleLayout, ArticleLayout)
are modelled from the specification and marked as such.
-/

namespace Portfolio

/-- A rendered markup node: either a text node or an element carrying a tag,
an attribute list and a list of children.  This is the shallow embedding of
the JSX output trees. -/
inductive Node where
  | text : String → Node
  | elem : String → List (String × String) → List Node → Node

/-- A single displayable entry of the content registry (spec data model):
title, optional link target, category (the section it belongs to) and a
description body. -/
structure ContentItem where
  title : String
  href : Option String
  category : String
  description : String
deriving DecidableEq

/-- A named bucket of ContentItem sharing a category (spec data model). -/
structure ContentGroup where
  name : String
  items : List ContentItem
deriving DecidableEq

/-- Modelled from the spec: the repository hard-codes its sections in
src/pages/uses.jsx, so the grouping operation of spec section 4.1 has no
single source function.  `firstSeenAux seen l` lists the categories of `l`
that are not in `seen`, in first-seen order. -/
def firstSeenAux (seen : List String) : List ContentItem → List String
  | [] => []
  | i :: rest =>
    if i.category ∈ seen then firstSeenAux seen rest
    else i.category :: firstSeenAux (i.category :: seen) rest

/-- The distinct categories of a content sequence, in first-seen order. -/
def firstSeenCats (items : List ContentItem) : List String :=
  firstSeenAux [] items

/-- Modelled from the spec (section 4.1): partition an ordered sequence of
ContentItem into ContentGroup records, one per distinct category, preserving
first-seen order of categories and within-category item order. -/
def groupByCategory (items : List ContentItem) : List ContentGroup :=
  (firstSeenCats items).map fun c => ⟨c, items.filter fun i => i.category == c⟩

/-- Ambient mutable state threaded through the explicit-state embedding of
render steps (the components never touch it). -/
abbrev RenderState := List (String × String)

/-- Explicit-state embedding of grouping: the operation reads and writes no
ambient state, so the state threads through unchanged. -/
def groupByCategorySt (items : List ContentItem) (s : RenderState) :
    List ContentGroup × RenderState :=
  (groupByCategory items, s)

/-- Rendering of a possibly-absent JSX child: an undefined value renders as
nothing, a string renders as a text node. -/
def titleNodes : Option String → List Node
  | some s => [Node.text s]
  | none => []

/-- Modelled from the spec: the Card.Title component (imported from a
components directory that is not among the sources) renders a heading that
is hyperlinked exactly when an href is supplied, taking the link target
verbatim and attaching the supplied target and rel attributes (spec
section 4.2: optionally hyperlinked, opening in a new, unprivileged
context). -/
def CardTitle (href : Option String) (target rel : String)
    (contents : List Node) : Node :=
  match href with
  | some u =>
    Node.elem "h3" []
      [Node.elem "a" [("href", u), ("target", target), ("rel", rel)] contents]
  | none => Node.elem "h3" [] contents

/-- Modelled from the spec: the Card.Description component wraps the
description body of a card. -/
def CardDescription (children : List Node) : Node :=
  Node.elem "div" [] children

/-- Embedding of the Tool component of src/pages/uses.jsx: a Card rendered
as a list item whose Card.Title carries the href verbatim together with the
hard-coded target and rel attributes, followed by the description.  The
props are optional exactly as JSX props are: a missing title renders as an
empty title region. -/
def Tool (title href : Option String) (children : List Node) : Node :=
  Node.elem "li" []
    [CardTitle href "_blank" "noopener noreferrer" (titleNodes title),
     CardDescription children]

/-- The full props object a caller may pass to Tool.  The component
destructures only title, href and children; every other prop lands in
`extra` and is dropped. -/
structure ToolProps where
  title : Option String
  href : Option String
  children : List Node
  extra : List (String × String)

/-- Tool applied to a props object: only the three destructured props are
used, mirroring the source destructuring pattern. -/
def toolOfProps (p : ToolProps) : Node :=
  Tool p.title p.href p.children

/-- Rendering of one registry entry as a card. -/
def renderItem (i : ContentItem) : Node :=
  Tool (some i.title) i.href [Node.text i.description]

/-- The build step for a card.  The source performs no validation of
required fields, so the build never signals an error. -/
def buildTool (title href : Option String) (children : List Node) :
    Except String Node :=
  Except.ok (Tool title href children)

/-- Explicit-state embedding of one render of Tool: the component reads no
ambient state and performs no writes, so the state threads through
unchanged. -/
def toolRenderSt (title href : Option String) (children : List Node)
    (s : RenderState) : Node × RenderState :=
  (Tool title href children, s)

/-- Model of the clsx helper restricted to its use in the About page: join
an optional class with a literal class. -/
def clsx2 : Option String → String → String
  | some c, d => c ++ " " ++ d
  | none, d => d

/-- Embedding of the SocialLink component of the About page: a list item
wrapping a link whose href is taken verbatim and which carries the
hard-coded target and rel attributes, followed by the icon and the label. -/
def SocialLink (className : Option String) (href : String) (icon : Node)
    (children : List Node) : Node :=
  Node.elem "li" [("class", clsx2 className "flex")]
    [Node.elem "a"
      [("href", href), ("target", "_blank"), ("rel", "noopener noreferrer"),
       ("class", "group flex text-sm font-medium text-zinc-800 transition hover:text-teal-500 dark:text-zinc-200 dark:hover:text-teal-500")]
      [icon, Node.elem "span" [("class", "ml-4")] children]]

/-- Attributes of a node when it is an anchor element. -/
def linkAttrs : Node → Option (List (String × String))
  | Node.elem "a" attrs _ => some attrs
  | _ => none

/-- The attribute list of the title link of a rendered card. -/
def cardLink (n : Node) : Option (List (String × String)) :=
  match n with
  | Node.elem "li" _ (Node.elem "h3" _ [a] :: _) => linkAttrs a
  | _ => none

/-- The attribute list of the link of a rendered social-link entry. -/
def socialLinkAttrs (n : Node) : Option (List (String × String)) :=
  match n with
  | Node.elem "li" _ (a :: _) => linkAttrs a
  | _ => none

/-- One block of long-form article body content: the MDX bodies are flat
sequences of paragraphs, headings, code blocks and image references. -/
inductive Block where
  | para : String → Block
  | heading : String → Block
  | code : String → Block
  | image : String → Block
deriving DecidableEq

/-- An article record: authorship metadata plus a marked-up body. -/
structure Article where
  author : String
  date : String
  title : String
  description : String
  body : List Block
deriving DecidableEq

/-- Rendering of one body block, a direct layout placement with no
transformation of the text. -/
def renderBlock : Block → Node
  | Block.para s => Node.elem "p" [] [Node.text s]
  | Block.heading s => Node.elem "h2" [] [Node.text s]
  | Block.code s => Node.elem "pre" [] [Node.text s]
  | Block.image src => Node.elem "img" [("src", src)] []

/-- The texts carried by one body block. -/
def blockTexts : Block → List String
  | Block.para s => [s]
  | Block.heading s => [s]
  | Block.code s => [s]
  | Block.image _ => []

/-- The metadata header of an article page: title, date and author, each
inserted exactly once and unmodified. -/
def articleHeader (a : Article) : Node :=
  Node.elem "header" []
    [Node.elem "h1" [] [Node.text a.title],
     Node.elem "time" [("dateTime", a.date)] [Node.text a.date],
     Node.elem "p" [] [Node.text a.author]]

/-- Modelled from the spec: the ArticleLayout component (not among the
sources; the articles only export their meta record to it) combines the
metadata header with the body content verbatim (spec section 4.3). -/
def renderArticle (a : Article) : Node :=
  Node.elem "article" []
    [articleHeader a, Node.elem "div" [] (a.body.map renderBlock)]

/-- The build step for an article page: the layout is a template
substitution with no failure path. -/
def buildArticle (a : Article) : Except String Node :=
  Except.ok (renderArticle a)

/-- The children of the content region of a rendered article page. -/
def contentRegion : Node → List Node
  | Node.elem _ _ [_, Node.elem _ _ cs] => cs
  | _ => []

/-- Texts of a node, not descending into elements. -/
def texts0 : Node → List String
  | Node.text s => [s]
  | Node.elem _ _ _ => []

/-- Texts of a node, descending one level. -/
def texts1 : Node → List String
  | Node.text s => [s]
  | Node.elem _ _ cs => cs.flatMap texts0

/-- Texts of a node, descending two levels. -/
def texts2 : Node → List String
  | Node.text s => [s]
  | Node.elem _ _ cs => cs.flatMap texts1

/-- Texts of a node, descending three levels: rendered article pages have
depth at most three, so this collects every text of such a page. -/
def texts3 : Node → List String
  | Node.text s => [s]
  | Node.elem _ _ cs => cs.flatMap texts2

/-- The content registry of the Uses page, transcribed from
src/pages/uses.jsx in declaration order; each category is the title of the
section the entry is declared in. -/
def macbookItem : ContentItem :=
  ⟨"16” MacBook Pro, M2, 32GB RAM (2022)",
   some "https://www.apple.com/au/shop/buy-mac/macbook-pro/16-inch",
   "Workstation",
   "I was using an Intel-based 16” MacBook Pro prior to this and the difference is night and day. I’ve never heard the fans turn on a single time, even under the incredibly heavy loads I put it through with our various launch simulations."⟩

def airpodsItem : ContentItem :=
  ⟨"AirPods Max",
   some "https://www.apple.com/au/airpods-max/",
   "Workstation",
   "Music plays a vital role in my daily routine, whether I`m working on complex coding challenges or diving into an engaging study session. With my AirPods Max, I`m enveloped in my favorite melodies and tunes. They create a personal soundscape that fosters my focus and enhances my productivity, turning work and study hours into an enjoyable journey."⟩

def pycharmItem : ContentItem :=
  ⟨"PyCharm Professional",
   some "https://www.jetbrains.com/pycharm/",
   "Development tools",
   "As a software developer, I need a robust and reliable IDE, and PyCharm Professional hits the mark. Its intelligent code assistance and extensive range of handy features streamline my coding workflow, making it easier to write, debug, and refactor Python code. The overall result? A significant boost in productivity and a smoother coding experience."⟩

def datagripItem : ContentItem :=
  ⟨"DataGrip",
   some "https://www.jetbrains.com/datagrip/",
   "Development tools",
   "Managing databases is an integral part of my work, and DataGrip is my go-to tool for that. It supports various databases and provides smart code completion, on-the-fly error detection, and even version control system integration. It`s more than just a database tool - it`s a comprehensive solution that makes handling databases intuitive and hassle-free."⟩

def iterm2Item : ContentItem :=
  ⟨"iTerm2",
   some "https://iterm2.com/",
   "Development tools",
   "iTerm2 enhances my command-line experience with its array of powerful features. The split-pane views, search functionality, and extensive customization options it provides all contribute to a superior terminal experience. Whether it`s scripting or running development servers, iTerm2 proves itself as an invaluable asset in my toolkit."⟩

def figmaItem : ContentItem :=
  ⟨"Figma",
   some "https://www.figma.com/",
   "Design",
   "When it comes to design tools, Figma has become my go-to. Beyond just a design tool, it`s our virtual whiteboard for brainstorming, prototyping, and collaboration. The seamless real-time collaboration feature is a game-changer, enabling us to work together on designs no matter where we are."⟩

def midjourneyItem : ContentItem :=
  ⟨"MidJourney AI",
   some "https://www.midjourney.com/home/?callbackUrl=%2Fapp%2F",
   "Design",
   "When I need original, creative images and graphics for my apps, MidJourney AI is my go-to tool. It`s like having a personal graphic designer at my disposal. Its AI capabilities help me to generate stunning visuals that are unique and resonate with my user base."⟩

def trelloItem : ContentItem :=
  ⟨"Trello",
   some "https://trello.com",
   "Productivity",
   "Trello is my go-to task management and project collaboration tool. Its intuitive board, list, and card interface allows me to organize and prioritize my tasks and projects effectively. With features like due dates, checklists, labels, and integrations, Trello helps me stay on top of my work and collaborate with team members seamlessly."⟩

def chatgptItem : ContentItem :=
  ⟨"ChatGPT",
   some "https://chat.openai.com/",
   "Productivity",
   "I find ChatGPT incredibly useful for brainstorming, code review, and as a writing assistant. It`s like having an AI-powered co-worker who`s always ready to provide insights and assist with the development process. It really has become an essential part of my productivity toolkit."⟩

/-- The ordered content registry of the Uses page. -/
def usesItems : List ContentItem :=
  [macbookItem, airpodsItem, pycharmItem, datagripItem, iterm2Item,
   figmaItem, midjourneyItem, trelloItem, chatgptItem]

/-- The props object of the PyCharm Professional call in the source, which
passes the extra target and rel props that Tool does not destructure. -/
def pycharmProps : ToolProps :=
  ⟨some pycharmItem.title, pycharmItem.href,
   [Node.text pycharmItem.description],
   [("target", "_blank"), ("rel", "noopener noreferrer")]⟩

/-- The same props object without the extra props. -/
def pycharmPropsPlain : ToolProps :=
  ⟨some pycharmItem.title, pycharmItem.href,
   [Node.text pycharmItem.description], []⟩

/-- The head element of the Uses page. -/
def usesHead : Node :=
  Node.elem "head" []
    [Node.elem "title" [] [Node.text "Uses - My favourite tools"],
     Node.elem "meta"
       [("name", "description"),
        ("content", "Software I use, gadgets I love, and other things I recommend.")]
       []]

/-- Modelled from the spec: the SimpleLayout component (not among the
sources) renders the page title and intro followed by its children inside a
main container. -/
def SimpleLayout (title intro : String) (children : List Node) : Node :=
  Node.elem "main" []
    (Node.elem "h1" [] [Node.text title]
      :: Node.elem "p" [] [Node.text intro] :: children)

/-- Modelled from the spec: the Section component (not among the sources)
renders a titled section wrapping its children. -/
def Section (title : String) (children : List Node) : Node :=
  Node.elem "section" []
    (Node.elem "h2" [] [Node.text title] :: children)

/-- Embedding of the ToolsSection component of src/pages/uses.jsx: a Section
wrapping a list of cards. -/
def ToolsSection (title : String) (children : List Node) : Node :=
  Section title [Node.elem "ul" [("role", "list")] children]

def usesTitle : String :=
  "Software I use, gadgets I love, and other things I recommend."

def usesIntro : String :=
  "I get asked a lot about the things I use to build software, stay productive, or buy to fool myself into thinking I’m being productive when I’m really just procrastinating. Here’s a big list of all of my favorite stuff."

/-- Embedding of the Uses page of src/pages/uses.jsx: four hard-coded tool
sections.  The Books section of the source is wrapped in a JSX comment and
therefore emits nothing; the PyCharm entry is rendered through its full
props object, mirroring the extra target and rel props of the source
call. -/
def Uses : Node :=
  Node.elem "page" []
    [usesHead,
     SimpleLayout usesTitle usesIntro
       [Node.elem "div" []
         [ToolsSection "Workstation"
            [renderItem macbookItem, renderItem airpodsItem],
          ToolsSection "Development tools"
            [toolOfProps pycharmProps, renderItem datagripItem,
             renderItem iterm2Item],
          ToolsSection "Design"
            [renderItem figmaItem, renderItem midjourneyItem],
          ToolsSection "Productivity"
            [renderItem trelloItem, renderItem chatgptItem]]]]

/-- The section nodes of a rendered Uses page. -/
def pageSections (n : Node) : List Node :=
  match n with
  | Node.elem _ _ [_, Node.elem _ _ [_, _, Node.elem _ _ secs]] => secs
  | _ => []

/-- The title of a rendered section. -/
def sectionTitleOf : Node → Option String
  | Node.elem "section" _ (Node.elem "h2" _ [Node.text t] :: _) => some t
  | _ => none

/-- The title text of a rendered card, hyperlinked or not. -/
def cardTitleText : Node → Option String
  | Node.elem "li" _ (Node.elem "h3" _ [Node.elem "a" _ [Node.text t]] :: _) =>
    some t
  | Node.elem "li" _ (Node.elem "h3" _ [Node.text t] :: _) => some t
  | _ => none

/-- The card titles of a rendered section. -/
def sectionToolTitles : Node → List String
  | Node.elem "section" _ [_, Node.elem "ul" _ cards] =>
    cards.filterMap cardTitleText
  | _ => []

/-- The scenario input of spec section 8: three items with interleaved
categories. -/
def itemA : ContentItem := ⟨"A", none, "X", ""⟩

def itemB : ContentItem := ⟨"B", none, "Y", ""⟩

def itemC : ContentItem := ⟨"C", none, "X", ""⟩

def scenarioItems : List ContentItem := [itemA, itemB, itemC]

/-- A concrete article built from the meta record of the first machine
learning article together with its opening body blocks. -/
def article03 : Article :=
  ⟨"Ibrahim", "2022-01-29", "Your First Machine Learning Project in Python",
   "Most companies try to stay ahead of the curve when it comes to visual design, but for Planetaria we needed to create a brand that would still inspire us 100 years from now when humanity has spread across our entire solar system.",
   [Block.image "./planetaria-design-system.png",
    Block.para "You work for a commercial bank in Australia. Recently, your bank has been receiving many applications for credit cards."]⟩

/-- The same article meta with an empty body. -/
def emptyBodyArticle : Article :=
  ⟨"Ibrahim", "2022-01-29", "Your First Machine Learning Project in Python",
   "Most companies try to stay ahead of the curve when it comes to visual design, but for Planetaria we needed to create a brand that would still inspire us 100 years from now when humanity has spread across our entire solar system.",
   []⟩

/-- Membership in the category trace: a category occurs in
`firstSeenAux seen l` exactly when it is not yet seen and some item of `l`
carries it. -/
theorem mem_firstSeenAux (c : String) (l : List ContentItem) :
    ∀ seen : List String,
      c ∈ firstSeenAux seen l ↔ c ∉ seen ∧ ∃ i ∈ l, i.category = c := by
  induction l with
  | nil => intro seen; simp [firstSeenAux]
  | cons i rest ih =>
    intro seen
    by_cases h : i.category ∈ seen
    · simp only [firstSeenAux, if_pos h, ih, List.mem_cons]
      constructor
      · rintro ⟨hc, j, hj, hcat⟩
        exact ⟨hc, j, Or.inr hj, hcat⟩
      · rintro ⟨hc, j, rfl | hj2, hcat⟩
        · exact absurd (hcat ▸ h) hc
        · exact ⟨hc, j, hj2, hcat⟩
    · simp only [firstSeenAux, if_neg h, List.mem_cons, ih]
      constructor
      · rintro (rfl | ⟨hc, j, hj, hcat⟩)
        · exact ⟨h, i, Or.inl rfl, rfl⟩
        · exact ⟨fun hs => hc (Or.inr hs), j, Or.inr hj, hcat⟩
      · rintro ⟨hc, j, rfl | hj2, hcat⟩
        · exact Or.inl hcat.symm
        · by_cases hci : c = i.category
          · exact Or.inl hci
          · exact Or.inr ⟨fun hor => hor.elim hci hc, j, hj2, hcat⟩

/-- The category trace never repeats a category. -/
theorem nodup_firstSeenAux (l : List ContentItem) :
    ∀ seen : List String, (firstSeenAux seen l).Nodup := by
  induction l with
  | nil => intro seen; simp [firstSeenAux]
  | cons i rest ih =>
    intro seen
    by_cases h : i.category ∈ seen
    · simpa [firstSeenAux, if_pos h] using ih seen
    · simp only [firstSeenAux, if_neg h]
      refine List.nodup_cons.mpr ⟨?_, ih _⟩
      intro hmem
      exact ((mem_firstSeenAux i.category rest (i.category :: seen)).mp hmem).1
        (List.mem_cons_self _ _)

/-- Congruence of flatMap on members. -/
theorem flatMap_congr_mem {α β : Type} {l : List α} {f g : α → List β}
    (h : ∀ a ∈ l, f a = g a) : l.flatMap f = l.flatMap g := by
  induction l with
  | nil => rfl
  | cons a l ih =>
    rw [List.flatMap_cons, List.flatMap_cons, h a (List.mem_cons_self a l),
      ih fun b hb => h b (List.mem_cons_of_mem a hb)]

/-- Concatenating, over a duplicate-free list of categories covering every
item, the filters of an item list is a permutation of that list. -/
theorem flatMap_filter_perm :
    ∀ cs : List String, cs.Nodup →
      ∀ items : List ContentItem, (∀ i ∈ items, i.category ∈ cs) →
        List.Perm (cs.flatMap fun c => items.filter fun i => i.category == c)
          items := by
  intro cs
  induction cs with
  | nil =>
    intro _ items h
    have hnil : items = [] :=
      List.eq_nil_iff_forall_not_mem.mpr fun i hi =>
        absurd (h i hi) (List.not_mem_nil _)
    subst hnil
    simp
  | cons c cs ih =>
    intro hnd items hcov
    have hcnot : c ∉ cs := (List.nodup_cons.mp hnd).1
    have hnd2 : cs.Nodup := (List.nodup_cons.mp hnd).2
    rw [List.flatMap_cons]
    have hstep : (cs.flatMap fun c2 => items.filter fun i => i.category == c2)
        = cs.flatMap fun c2 =>
            (items.filter fun i => !(i.category == c)).filter
              fun i => i.category == c2 := by
      refine flatMap_congr_mem fun c2 hc2 => ?_
      rw [List.filter_filter]
      refine List.filter_congr fun i _ => ?_
      by_cases hic : i.category = c2
      · have hne : c2 ≠ c := fun he => hcnot (he ▸ hc2)
        simp [hic, hne]
      · simp [hic]
    rw [hstep]
    have hperm : List.Perm
        (cs.flatMap fun c2 =>
          (items.filter fun i => !(i.category == c)).filter
            fun i => i.category == c2)
        (items.filter fun i => !(i.category == c)) := by
      refine ih hnd2 _ fun i hi => ?_
      have hmem := List.mem_filter.mp hi
      rcases List.mem_cons.mp (hcov i hmem.1) with he | h2
      · exfalso
        have hneg := hmem.2
        simp [he] at hneg
      · exact h2
    exact (List.Perm.append_left _ hperm).trans
      (List.filter_append_perm (fun i => i.category == c) items)

/-- Rendering a block places its text unchanged. -/
theorem texts1_renderBlock (b : Block) :
    texts1 (renderBlock b) = blockTexts b := by
  cases b <;> rfl

/-- The texts of a rendered article page are the title, the date, the
author, then the body texts in order. -/
theorem pageTexts_eq (a : Article) :
    texts3 (renderArticle a)
      = a.title :: a.date :: a.author :: a.body.flatMap blockTexts := by
  have hbody : (a.body.map renderBlock).flatMap texts1
      = a.body.flatMap blockTexts := by
    rw [List.flatMap_map]
    exact flatMap_congr_mem fun b _ => texts1_renderBlock b
  simp [renderArticle, articleHeader, texts3, texts2, texts1, texts0, hbody]

/-- Claim C1 (amended): grouping is a lossless, order-preserving partition
in the permutation sense: the group names are exactly the distinct
categories of the input, without duplicates and in first-seen order; each
group keeps its items in source order, being the order-preserving filter of
the input (a sublist of it); and the concatenation of the items of all
groups in group-declaration order is a permutation of the input, each item
occurring exactly once.  The concatenation is not in general equal to the
input sequence itself (see the counterexample). -/
theorem grouping_lossless_partition (items : List ContentItem) :
    (groupByCategory items).map ContentGroup.name = firstSeenCats items
    ∧ ((groupByCategory items).map ContentGroup.name).Nodup
    ∧ (∀ c : String, c ∈ (groupByCategory items).map ContentGroup.name
        ↔ ∃ i ∈ items, i.category = c)
    ∧ (∀ g ∈ groupByCategory items,
        g.items = items.filter fun i => i.category == g.name)
    ∧ (∀ g ∈ groupByCategory items, g.items.Sublist items)
    ∧ List.Perm ((groupByCategory items).flatMap ContentGroup.items) items := by
  have hnames : (groupByCategory items).map ContentGroup.name
      = firstSeenCats items := by
    simp only [groupByCategory, List.map_map]
    have hcomp : (ContentGroup.name ∘ fun c =>
        ContentGroup.mk c (items.filter fun i => i.category == c)) = id := rfl
    rw [hcomp, List.map_id]
  have hnd : ((groupByCategory items).map ContentGroup.name).Nodup := by
    rw [hnames]
    exact nodup_firstSeenAux items []
  have hfilter : ∀ g ∈ groupByCategory items,
      g.items = items.filter fun i => i.category == g.name := by
    intro g hg
    rcases List.mem_map.mp hg with ⟨c, hc, rfl⟩
    rfl
  refine ⟨hnames, hnd, ?_, hfilter, ?_, ?_⟩
  · intro c
    rw [hnames]
    simp only [firstSeenCats]
    rw [mem_firstSeenAux c items []]
    simp
  · intro g hg
    rw [hfilter g hg]
    exact List.filter_sublist items
  · have hcov : ∀ i ∈ items, i.category ∈ firstSeenCats items := by
      intro i hi
      simp only [firstSeenCats]
      rw [mem_firstSeenAux i.category items []]
      exact ⟨List.not_mem_nil _, i, hi, rfl⟩
    have hfm : (groupByCategory items).flatMap ContentGroup.items
        = (firstSeenCats items).flatMap
            fun c => items.filter fun i => i.category == c := by
      simp only [groupByCategory]
      rw [List.flatMap_map]
    rw [hfm]
    exact flatMap_filter_perm _ (nodup_firstSeenAux items []) items hcov

/-- Witness for the amended C1 at the scenario input of spec section 8. -/
theorem grouping_lossless_partition_witness :
    ((groupByCategory scenarioItems).map ContentGroup.name).Nodup
    ∧ (ContentGroup.mk "X" [itemA, itemC]).items
        = scenarioItems.filter (fun i => i.category == "X")
    ∧ List.Perm ((groupByCategory scenarioItems).flatMap ContentGroup.items)
        scenarioItems := by
  refine ⟨(grouping_lossless_partition scenarioItems).2.1, ?_,
    (grouping_lossless_partition scenarioItems).2.2.2.2.2⟩
  exact (grouping_lossless_partition scenarioItems).2.2.2.1
    ⟨"X", [itemA, itemC]⟩ (by decide)

/-- Claim C1 counterexample: for the scenario input of spec section 8, with
interleaved categories X, Y, X, the concatenation of the groups in
group-declaration order lists the items as A, C, B, which is not the
original input sequence A, B, C. -/
theorem grouping_concat_ne_input :
    (groupByCategory scenarioItems).flatMap ContentGroup.items
      ≠ scenarioItems := by
  decide

/-- Claim C2: for every ContentItem whose href is defined, the rendered
card title link carries exactly that href verbatim, together with target
_blank and rel noopener noreferrer; the SocialLink of the About page
renders its href the same way. -/
theorem link_isolation (i : ContentItem) (u : String) (h : i.href = some u) :
    (cardLink (renderItem i)).bind (List.lookup "href") = some u
    ∧ (cardLink (renderItem i)).bind (List.lookup "target") = some "_blank"
    ∧ (cardLink (renderItem i)).bind (List.lookup "rel")
        = some "noopener noreferrer"
    ∧ ∀ (cl : Option String) (ic : Node) (cs : List Node),
        (socialLinkAttrs (SocialLink cl u ic cs)).bind (List.lookup "href")
            = some u
        ∧ (socialLinkAttrs (SocialLink cl u ic cs)).bind
            (List.lookup "target") = some "_blank"
        ∧ (socialLinkAttrs (SocialLink cl u ic cs)).bind
            (List.lookup "rel") = some "noopener noreferrer" := by
  have hre : renderItem i = Tool (some i.title) (some u)
      [Node.text i.description] := by
    unfold renderItem
    rw [h]
  refine ⟨?_, ?_, ?_, fun cl ic cs => ⟨rfl, rfl, rfl⟩⟩ <;> rw [hre] <;> rfl

/-- Witness for C2 at the Trello entry of the registry. -/
theorem link_isolation_witness :
    trelloItem.href = some "https://trello.com"
    ∧ (cardLink (renderItem trelloItem)).bind (List.lookup "href")
        = some "https://trello.com" :=
  ⟨rfl, (link_isolation trelloItem "https://trello.com" rfl).1⟩

/-- Claim C3: a rendered article page contains the article title exactly
once and the article date exactly once, both unmodified, and its content
region reproduces the body blocks verbatim in layout position — provided
the body text does not itself repeat the title or date and the three header
fields are pairwise distinct. -/
theorem article_meta_once (a : Article)
    (ht : a.title ∉ a.body.flatMap blockTexts)
    (hd : a.date ∉ a.body.flatMap blockTexts)
    (htd : a.title ≠ a.date) (hta : a.title ≠ a.author)
    (hda : a.date ≠ a.author) :
    List.count a.title (texts3 (renderArticle a)) = 1
    ∧ List.count a.date (texts3 (renderArticle a)) = 1
    ∧ contentRegion (renderArticle a) = a.body.map renderBlock := by
  refine ⟨?_, ?_, rfl⟩
  · rw [pageTexts_eq a]
    have h0 : List.count a.title (a.body.flatMap blockTexts) = 0 :=
      List.count_eq_zero.mpr ht
    simp [List.count_cons, h0, beq_iff_eq, Ne.symm htd, Ne.symm hta]
  · rw [pageTexts_eq a]
    have h0 : List.count a.date (a.body.flatMap blockTexts) = 0 :=
      List.count_eq_zero.mpr hd
    simp [List.count_cons, h0, beq_iff_eq, htd, Ne.symm hda]

/-- Witness for C3 at the machine learning article meta record. -/
theorem article_meta_once_witness :
    List.count article03.title (texts3 (renderArticle article03)) = 1
    ∧ List.count article03.date (texts3 (renderArticle article03)) = 1 := by
  have h := article_meta_once article03 (by decide) (by decide) (by decide)
    (by decide) (by decide)
  exact ⟨h.1, h.2.1⟩

/-- Claim C4 counterexample: building a card whose required title is absent
does not refuse to build: it succeeds, producing a degraded card whose
title region is empty. -/
theorem missing_title_builds :
    buildTool none none []
      = Except.ok (Node.elem "li" []
          [Node.elem "h3" [] [], Node.elem "div" [] []]) := rfl

/-- Claim C4 (amended): the renderer does not fail fast: when the required
title is absent, the build succeeds and silently renders a degraded card
with an empty title region, propagating the missing field as a
caller-supplied-data defect. -/
theorem missing_title_degrades (href : Option String) (cs : List Node) :
    (buildTool none href cs).isOk = true
    ∧ buildTool none href cs
        = Except.ok (Node.elem "li" []
            [CardTitle href "_blank" "noopener noreferrer" [],
             CardDescription cs]) :=
  ⟨rfl, rfl⟩

/-- Claim C5: rendering is deterministic and pure: in the explicit-state
semantics, the output of a Tool render does not depend on the ambient
state, the state comes back unchanged (no side effects), and rendering the
same item a second time, in the state left by the first render, produces
identical output. -/
theorem render_pure (title href : Option String) (cs : List Node)
    (s1 s2 : RenderState) :
    (toolRenderSt title href cs s1).1 = (toolRenderSt title href cs s2).1
    ∧ (toolRenderSt title href cs s1).2 = s1
    ∧ (toolRenderSt title href cs ((toolRenderSt title href cs s1).2)).1
        = (toolRenderSt title href cs s1).1 :=
  ⟨rfl, rfl, rfl⟩

set_option maxRecDepth 8192 in
/-- Claim C6: every entry of the content registry has a non-empty title;
the groups of the registry carry pairwise distinct names and each keeps its
items in source declaration order, being the order-preserving filter of the
registry to its category. -/
theorem registry_invariants :
    (∀ i ∈ usesItems, i.title ≠ "")
    ∧ ((groupByCategory usesItems).map ContentGroup.name).Nodup
    ∧ ∀ g ∈ groupByCategory usesItems,
        g.items = usesItems.filter fun i => i.category == g.name := by
  exact ⟨by decide, by decide, by decide⟩

/-- Claim C7: an article with an empty body renders a page containing only
the metadata header and an empty content region, and the build step never
signals an error. -/
theorem empty_body_renders (a : Article) (h : a.body = []) :
    renderArticle a
      = Node.elem "article" [] [articleHeader a, Node.elem "div" [] []]
    ∧ contentRegion (renderArticle a) = []
    ∧ buildArticle a = Except.ok (renderArticle a) := by
  refine ⟨?_, ?_, rfl⟩
  · simp [renderArticle, h]
  · simp [renderArticle, contentRegion, h]

/-- Witness for C7 at the article meta record with an empty body. -/
theorem empty_body_renders_witness :
    renderArticle emptyBodyArticle
      = Node.elem "article" []
          [articleHeader emptyBodyArticle, Node.elem "div" [] []] :=
  (empty_body_renders emptyBodyArticle rfl).1

/-- Claim C8: grouping the empty sequence of ContentItem yields the empty
sequence of ContentGroup, with no error condition and, in the
explicit-state semantics, no side effect. -/
theorem grouping_empty :
    groupByCategory [] = []
    ∧ ∀ s : RenderState, groupByCategorySt [] s = ([], s) :=
  ⟨rfl, fun _ => rfl⟩

/-- Claim C9: Tool destructures only title, href and children; every extra
prop is dropped, so two invocations differing only in extra props render
identical output. -/
theorem tool_ignores_extra_props (p q : ToolProps) (h1 : p.title = q.title)
    (h2 : p.href = q.href) (h3 : p.children = q.children) :
    toolOfProps p = toolOfProps q := by
  unfold toolOfProps
  rw [h1, h2, h3]

/-- Witness for C9: the PyCharm Professional entry, which the source calls
with extra target and rel props, renders identically with and without
them. -/
theorem tool_ignores_extra_props_witness :
    toolOfProps pycharmProps = toolOfProps pycharmPropsPlain :=
  tool_ignores_extra_props pycharmProps pycharmPropsPlain rfl rfl rfl

/-- Claim C10: the Uses page renders exactly four tool sections, titled
Workstation, Development tools, Design and Productivity in that order; its
cards are exactly the nine registry entries; and none of the four entries
of the commented-out Books section occurs in the rendered output. -/
theorem uses_page_sections :
    (pageSections Uses).map sectionTitleOf
      = [some "Workstation", some "Development tools", some "Design",
         some "Productivity"]
    ∧ (pageSections Uses).length = 4
    ∧ (pageSections Uses).flatMap sectionToolTitles
      = ["16” MacBook Pro, M2, 32GB RAM (2022)", "AirPods Max",
         "PyCharm Professional", "DataGrip", "iTerm2", "Figma",
         "MidJourney AI", "Trello", "ChatGPT"]
    ∧ "Joys of Compounding" ∉ (pageSections Uses).flatMap sectionToolTitles
    ∧ "The Pragmatic Programmer" ∉ (pageSections Uses).flatMap sectionToolTitles
    ∧ "ReWork" ∉ (pageSections Uses).flatMap sectionToolTitles
    ∧ "Incerto" ∉ (pageSections Uses).flatMap sectionToolTitles := by
  exact ⟨rfl, rfl, rfl, by decide, by decide, by decide, by decide⟩

end Portfolio
